import Mathlib

/-!
Verification of the `create_globe.js` CLI (GDS-IMS/qgis-resources).

The program is a single-pass pipeline: parse CLI arguments, load a
TopoJSON boundary dataset, render an orthographic-globe SVG per highlight
request, and write the result(s) to disk.  The shallow embedding below
translates the script's own logic (argument loop, loader branching,
highlight selection, projection centering, per-feature path attributes,
batch iteration) into executable Lean definitions.  The external
d3/topojson collaborators (geoBounds, geoPath, the topology decoder) are
taken as parameters or as already-decoded data, exactly as the spec
treats them: contracts given, not re-specified.

Coordinates and canvas dimensions are modelled with `ℚ` (exact
arithmetic standing in for JS numbers), console warnings as explicit
`List String` values, and filesystem activity as an explicit effect list.
-/

/-- Longitude/latitude pair (JS numbers modelled as rationals). -/
abbrev Coord : Type := ℚ × ℚ

/-- One decoded boundary feature: `d.properties.iso3`,
`d.properties.secondary_territory`, and its polygon geometry
(unused by the script's own logic, which delegates drawing to d3). -/
structure Feature where
  iso3 : String
  secondary_territory : Int
  geometry : List (List Coord)
deriving DecidableEq, Repr

/-- `geoBounds` result shape `[[minLon, minLat], [maxLon, maxLat]]`. -/
abbrev Bounds : Type := Coord × Coord

/-- The datum handed to the d3 path generator for each drawn path. -/
inductive PathDatum where
  | sphere
  | feature (f : Feature)
  | graticules (stepLon stepLat : ℚ)
deriving DecidableEq, Repr

/-- The orthographic projection configuration built in `generateSvg`:
`scale`, `translate`, `clipAngle`, and the `rotate` parameter
(default `(0, 0)`, set by the centering step). -/
structure Projection where
  scale : ℚ
  translate : Coord
  clipAngle : ℚ
  rotate : Coord
deriving DecidableEq, Repr

/-- One `<path>` element of the output: its `d` attribute and the
fill/stroke/stroke-width attributes the script sets on it. -/
structure PathElem where
  d : String
  fill : String
  stroke : Option String
  strokeWidth : Option ℚ
deriving DecidableEq, Repr

/-- The rendered SVG scene: root attributes, the ocean path, one path per
loaded feature (in order), the graticule path, and any console warnings
emitted during the render call. -/
structure Svg where
  width : ℚ
  height : ℚ
  projection : Projection
  ocean : PathElem
  countryPaths : List PathElem
  graticule : PathElem
  warnings : List String
deriving DecidableEq, Repr

/-- Highlight fill/stroke color `#EF4A60` from the source. -/
def highlightColor : String := "#EF4A60"

/-- Neutral fill/stroke color `#D1CCCB` from the source. -/
def neutralColor : String := "#D1CCCB"

/-- `countries.filter(d => highlightIso3.includes(d.properties.iso3))`. -/
def selectedFeatures (countries : List Feature) (highlightIso3 : List String) :
    List Feature :=
  countries.filter (fun d => highlightIso3.contains d.iso3)

/-- The non-rotated projection built at the top of `generateSvg`:
`scale((min(width, height) / 2) - 2)`, `translate([width/2, height/2])`,
`clipAngle(90)`; d3's default rotation is the identity. -/
def initialProjection (width height : ℚ) : Projection :=
  { scale := min width height / 2 - 2
    translate := (width / 2, height / 2)
    clipAngle := 90
    rotate := (0, 0) }

/-- The per-feature `<path class="country">` attributes:
fill and stroke are the highlight color when
`highlightIso3.includes(d.properties.iso3)`, else the neutral gray;
stroke-width is fixed at 0.5. -/
def countryPathOf (geoPathOf : Projection → PathDatum → String)
    (projection : Projection) (highlightIso3 : List String) (d : Feature) :
    PathElem :=
  { d := geoPathOf projection (PathDatum.feature d)
    fill := if highlightIso3.contains d.iso3 then highlightColor else neutralColor
    stroke :=
      some (if highlightIso3.contains d.iso3 then highlightColor else neutralColor)
    strokeWidth := some (1 / 2) }

/-- Shallow embedding of `generateSvg(highlightIso3)` from
`create_globe.js` (multi-code version, lines 132-192).  `geoBounds` and
`geoPathOf` are the external d3 collaborators, passed as parameters.
The source destructures `geoBounds` as
`[[minLon, minLat], [maxLon, maxLat]]`; here the same components are
accessed positionally.  The function body contains no `console.warn`
call, so the emitted warning list is empty. -/
def generateSvg (countries : List Feature) (geoBounds : List Feature → Bounds)
    (geoPathOf : Projection → PathDatum → String)
    (highlightIso3 : List String) (width height : ℚ) : Svg :=
  let projection0 := initialProjection width height
  let selected := selectedFeatures countries highlightIso3
  let projection :=
    if selected.length ≠ 0 then
      let b := geoBounds selected
      let centerLon := (b.1.1 + b.2.1) / 2
      let centerLat := (b.1.2 + b.2.2) / 2
      { projection0 with rotate := (-centerLon, -centerLat) }
    else projection0
  { width := width
    height := height
    projection := projection
    ocean :=
      { d := geoPathOf projection PathDatum.sphere
        fill := "white"
        stroke := none
        strokeWidth := none }
    countryPaths := countries.map (countryPathOf geoPathOf projection highlightIso3)
    graticule :=
      { d := geoPathOf projection (PathDatum.graticules 30 30)
        fill := "none"
        stroke := some "white"
        strokeWidth := some 1 }
    warnings := [] }

/-- Decimal-free rendering of a rational attribute value. -/
def qStr (q : ℚ) : String := toString q.num ++ "/" ++ toString q.den

/-- Serialization of one path element to markup text. -/
def pathMarkup (p : PathElem) : String :=
  "<path d=\"" ++ p.d ++ "\" fill=\"" ++ p.fill ++ "\""
    ++ (match p.stroke with
        | none => ""
        | some s => " stroke=\"" ++ s ++ "\"")
    ++ (match p.strokeWidth with
        | none => ""
        | some w => " stroke-width=\"" ++ qStr w ++ "\"")
    ++ "/>"

/-- Serialization of the rendered scene to the markup string returned by
`svg.node().outerHTML`: the root `<svg>` element with the namespace and
pixel dimensions, then the ocean, country paths and graticule in draw
order. -/
def renderMarkup (svg : Svg) : String :=
  "<svg xmlns=\"http://www.w3.org/2000/svg\" width=\"" ++ qStr svg.width
    ++ "\" height=\"" ++ qStr svg.height ++ "\">"
    ++ pathMarkup svg.ocean
    ++ String.join (svg.countryPaths.map pathMarkup)
    ++ pathMarkup svg.graticule
    ++ "</svg>"

/-- The resolver state: `iso3List`, `width`, `height`, `output`,
`outdir`, `all`, plus whether `printHelp` terminated the process and the
warnings printed so far. -/
structure Config where
  iso3List : List String
  width : Int
  height : Int
  output : Option String
  outdir : Option String
  all : Bool
  helpExit : Bool
  warnings : List String
deriving DecidableEq, Repr

/-- The variable initializations preceding the argv loop. -/
def initialConfig : Config :=
  { iso3List := ["ETH"]
    width := 800
    height := 800
    output := none
    outdir := none
    all := false
    helpExit := false
    warnings := [] }

/-- JS `parseInt(s, 10)`: skip leading whitespace, optional sign, then a
run of decimal digits; `none` models `NaN` (no digits found). -/
def parseIntJs (s : String) : Option Int :=
  let l := s.toList.dropWhile Char.isWhitespace
  let sl : Int × List Char :=
    match l with
    | '-' :: rest => (-1, rest)
    | '+' :: rest => (1, rest)
    | _ => (1, l)
  let digits := sl.2.takeWhile Char.isDigit
  if digits = [] then none
  else some (sl.1 * (digits.foldl (fun acc c => acc * 10 + (c.toNat - 48)) 0 : Nat))

/-- JS `parseInt(v, 10) || current`: `NaN` and `0` are falsy, so both
fall back to the current value. -/
def jsOrInt (parsed : Option Int) (current : Int) : Int :=
  match parsed with
  | none => current
  | some n => if n = 0 then current else n

/-- JS `String.prototype.toUpperCase` (ASCII range suffices for codes). -/
def toUpperJs (s : String) : String := String.mk (s.toList.map Char.toUpper)

/-- JS `String.prototype.trim`: strip whitespace from both ends. -/
def trimJs (s : String) : String :=
  String.mk
    (((s.toList.dropWhile Char.isWhitespace).reverse.dropWhile Char.isWhitespace).reverse)

/-- Worker for `split(',')`: split the remaining characters at commas,
`acc` holding the current segment reversed. -/
def splitCommaAux : List Char → List Char → List String
  | [], acc => [String.mk acc.reverse]
  | ',' :: rest, acc => String.mk acc.reverse :: splitCommaAux rest []
  | ch :: rest, acc => splitCommaAux rest (ch :: acc)

/-- JS `s.split(',')`: comma-separated segments, `[""]` on empty input. -/
def splitComma (s : String) : List String := splitCommaAux s.toList []

/-- `s.split(',').map(s => s.trim().toUpperCase())`. -/
def splitTrimUpper (s : String) : List String :=
  (splitComma s).map (fun t => toUpperJs (trimJs t))

/-- The argv `for`/`switch` loop (lines 67-97).  A value-taking option
consumes the following token via `argv[++i]`; a missing (`undefined`) or
empty following token is falsy, so `argv[++i] || fallback` keeps the
fallback.  `--help` calls `printHelp()`, which exits the process, ending
the loop.  Unrecognized tokens produce a warning. -/
def parseLoop : List String → Config → Config
  | [], c => c
  | tok :: rest, c =>
    if tok = "--help" then { c with helpExit := true }
    else if tok = "--iso3" ∨ tok = "-i" then
      match rest with
      | [] =>
        { c with iso3List := splitTrimUpper (String.intercalate "," c.iso3List) }
      | v :: rest2 =>
        let s := if v = "" then String.intercalate "," c.iso3List else v
        parseLoop rest2 { c with iso3List := splitTrimUpper s }
    else if tok = "--width" ∨ tok = "-w" then
      match rest with
      | [] => c
      | v :: rest2 => parseLoop rest2 { c with width := jsOrInt (parseIntJs v) c.width }
    else if tok = "--height" then
      match rest with
      | [] => c
      | v :: rest2 => parseLoop rest2 { c with height := jsOrInt (parseIntJs v) c.height }
    else if tok = "--output" ∨ tok = "-o" then
      match rest with
      | [] => c
      | v :: rest2 =>
        parseLoop rest2 { c with output := if v = "" then c.output else some v }
    else if tok = "--outdir" ∨ tok = "-d" then
      match rest with
      | [] => c
      | v :: rest2 =>
        parseLoop rest2 { c with outdir := if v = "" then c.outdir else some v }
    else if tok = "--all" then parseLoop rest { c with all := true }
    else
      parseLoop rest
        { c with warnings := c.warnings ++ ["⚠️  Unrecognized option: " ++ tok] }

/-- The full resolver: the argv loop followed by the default-output fill
(lines 100-105): when not in batch mode and no output was given, the
output file is the joined code list plus `.svg`. -/
def parseArgs (argv : List String) : Config :=
  let c := parseLoop argv initialConfig
  if ¬c.all ∧ c.output = none then
    { c with output := some (String.intercalate "," c.iso3List ++ ".svg") }
  else c

/-- The decoded TopoJSON dataset: an ordered association of named object
collections, each already decoded (by the external `topojson.feature`
collaborator) to its feature list. -/
structure TopoData where
  objects : List (String × List Feature)
deriving DecidableEq, Repr

/-- The loader's fatal conditions: dataset file absent, or no named
object collections in the decoded dataset.  Either is printed to the
error stream and the process exits with status 1. -/
inductive LoadError where
  | DatasetNotFound
  | EmptyTopology
deriving DecidableEq, Repr

/-- Shallow embedding of the load stage (lines 108-125).  The input is
the dataset file's decoded content, or `none` when the file is absent
(`fs.existsSync` false).  `topoKey` is `"countries"` when
`worldData.objects.countries` exists, else the first key; the chosen
collection's features are returned. -/
def loadGeometry (datasetFile : Option TopoData) :
    Except LoadError (List Feature) :=
  match datasetFile with
  | none => Except.error LoadError.DatasetNotFound
  | some worldData =>
    let topoKeys := worldData.objects.map Prod.fst
    if topoKeys.length = 0 then Except.error LoadError.EmptyTopology
    else
      let topoKey :=
        if (worldData.objects.lookup "countries").isSome then "countries"
        else topoKeys.headD ""
      Except.ok ((worldData.objects.lookup topoKey).getD [])

/-- `countries.filter(d => d.properties.secondary_territory === 0)`. -/
def mainCountries (countries : List Feature) : List Feature :=
  countries.filter (fun d => d.secondary_territory = 0)

/-- Filesystem effects performed by the batch branch of `main`. -/
inductive FsEffect where
  | mkdirRecursive (dir : String)
  | writeFile (filename : String) (content : String)
deriving DecidableEq, Repr

/-- Node `path.join(dir, name)` for the shapes produced here: joining
with `"."` yields the bare name, otherwise the segments are joined with
a separator. -/
def pathJoin (dir name : String) : String :=
  if dir = "." then name else dir ++ "/" ++ name

/-- `const dir = outdir || '.'`. -/
def batchDir (outdir : Option String) : String :=
  match outdir with
  | none => "."
  | some s => if s = "" then "." else s

/-- The `for (const feat of mainCountries)` loop body: write
`<dir>/<iso>.svg` with the markup of a render highlighting just that
feature's code. -/
def batchLoop (countries : List Feature) (geoBounds : List Feature → Bounds)
    (geoPathOf : Projection → PathDatum → String) (width height : ℚ)
    (dir : String) : List Feature → List FsEffect
  | [] => []
  | feat :: rest =>
    FsEffect.writeFile (pathJoin dir (feat.iso3 ++ ".svg"))
        (renderMarkup (generateSvg countries geoBounds geoPathOf [feat.iso3] width height))
      :: batchLoop countries geoBounds geoPathOf width height dir rest

/-- The batch (`--all`) branch of `main` (lines 196-205): resolve the
directory, create it recursively when absent, then write one file per
main-territory feature in list order.  `dirExists` models
`fs.existsSync(dir)`. -/
def mainAll (countries : List Feature) (geoBounds : List Feature → Bounds)
    (geoPathOf : Projection → PathDatum → String) (width height : ℚ)
    (outdir : Option String) (dirExists : Bool) : List FsEffect :=
  let dir := batchDir outdir
  (if dirExists then [] else [FsEffect.mkdirRecursive dir])
    ++ batchLoop countries geoBounds geoPathOf width height dir (mainCountries countries)

/-- The write effects of an effect list, in order. -/
def writesOf : List FsEffect → List (String × String)
  | [] => []
  | FsEffect.writeFile n c :: rest => (n, c) :: writesOf rest
  | FsEffect.mkdirRecursive _ :: rest => writesOf rest

/-- A small triangle used as placeholder geometry for concrete tests. -/
def sampleGeom : List (List Coord) := [[(38, 8), (39, 8), (39, 9)]]

/-- A main-territory feature with code `ETH`. -/
def featETH : Feature :=
  { iso3 := "ETH", secondary_territory := 0, geometry := sampleGeom }

/-- A main-territory feature with code `USA`. -/
def featUSA : Feature :=
  { iso3 := "USA", secondary_territory := 0, geometry := [[(-100, 40), (-90, 40), (-90, 45)]] }

/-- A secondary-territory feature with code `GUM`. -/
def featGUM : Feature :=
  { iso3 := "GUM", secondary_territory := 1, geometry := [[(144, 13), (145, 13), (145, 14)]] }

/-- A three-feature loaded list with one secondary territory. -/
def sampleCountries : List Feature := [featETH, featUSA, featGUM]

/-- A concrete stand-in for the external `geoBounds` collaborator. -/
def sampleBounds : List Feature → Bounds := fun _ => ((33, 3), (48, 15))

/-- A concrete stand-in for the external path generator. -/
def samplePathOf : Projection → PathDatum → String := fun _ _ => "M0,0Z"

/-- Object collections used by concrete checks: a dataset that has a
`countries` collection in second position. -/
def topoWithCountries : TopoData := ⟨[("x", [featUSA]), ("countries", [featETH])]⟩

/-- A dataset with no `countries` collection. -/
def topoNoCountries : TopoData := ⟨[("x", [featUSA]), ("y", [featETH])]⟩

set_option maxRecDepth 4000

/-- The country paths of a render are the per-feature path attributes,
mapped over the loaded feature list in order. -/
lemma generateSvg_countryPaths (countries : List Feature)
    (geoBounds : List Feature → Bounds) (geoPathOf : Projection → PathDatum → String)
    (highlightIso3 : List String) (width height : ℚ) :
    (generateSvg countries geoBounds geoPathOf highlightIso3 width height).countryPaths
      = countries.map
          (countryPathOf geoPathOf
            (generateSvg countries geoBounds geoPathOf highlightIso3 width height).projection
            highlightIso3) := rfl

/-- When at least one highlighted code matches a loaded feature, the
projection is rotated to the negated midpoint of the `geoBounds` box of
the matched features. -/
lemma generateSvg_rotate_pos (countries : List Feature)
    (geoBounds : List Feature → Bounds) (geoPathOf : Projection → PathDatum → String)
    (highlightIso3 : List String) (width height : ℚ)
    (hne : selectedFeatures countries highlightIso3 ≠ []) :
    (generateSvg countries geoBounds geoPathOf highlightIso3 width height).projection.rotate
      = (-(((geoBounds (selectedFeatures countries highlightIso3)).1.1
              + (geoBounds (selectedFeatures countries highlightIso3)).2.1) / 2),
         -(((geoBounds (selectedFeatures countries highlightIso3)).1.2
              + (geoBounds (selectedFeatures countries highlightIso3)).2.2) / 2)) := by
  have h0 : (selectedFeatures countries highlightIso3).length ≠ 0 := by
    simpa [List.length_eq_zero] using hne
  simp [generateSvg, h0, initialProjection]

/-- When no highlighted code matches a loaded feature, the rotation is
left at the identity. -/
lemma generateSvg_rotate_id (countries : List Feature)
    (geoBounds : List Feature → Bounds) (geoPathOf : Projection → PathDatum → String)
    (highlightIso3 : List String) (width height : ℚ)
    (he : selectedFeatures countries highlightIso3 = []) :
    (generateSvg countries geoBounds geoPathOf highlightIso3 width height).projection.rotate
      = (0, 0) := by
  simp [generateSvg, he, initialProjection]

/-- Claim C1: for every loaded feature list, highlight code set, width
and height, the rendered image has one country path per loaded feature;
a path carries the highlight color as both fill and stroke exactly when
its feature's code is a member of the highlight set, carries the neutral
gray as both fill and stroke exactly when it is not, and every country
path has stroke width 0.5. -/
theorem generateSvg_fill_stroke_iff (countries : List Feature)
    (geoBounds : List Feature → Bounds) (geoPathOf : Projection → PathDatum → String)
    (highlightIso3 : List String) (width height : ℚ) :
    (generateSvg countries geoBounds geoPathOf highlightIso3 width height).countryPaths.length
        = countries.length
    ∧ ∀ (i : Nat) (hc : i < countries.length)
        (hp : i < (generateSvg countries geoBounds geoPathOf highlightIso3 width
                    height).countryPaths.length),
        (((generateSvg countries geoBounds geoPathOf highlightIso3 width
              height).countryPaths[i].fill = highlightColor
           ∧ (generateSvg countries geoBounds geoPathOf highlightIso3 width
              height).countryPaths[i].stroke = some highlightColor)
          ↔ countries[i].iso3 ∈ highlightIso3)
        ∧ (((generateSvg countries geoBounds geoPathOf highlightIso3 width
              height).countryPaths[i].fill = neutralColor
           ∧ (generateSvg countries geoBounds geoPathOf highlightIso3 width
              height).countryPaths[i].stroke = some neutralColor)
          ↔ countries[i].iso3 ∉ highlightIso3)
        ∧ (generateSvg countries geoBounds geoPathOf highlightIso3 width
            height).countryPaths[i].strokeWidth = some (1 / 2) := by
  refine ⟨by simp [generateSvg_countryPaths], ?_⟩
  intro i hc hp
  have hget : (generateSvg countries geoBounds geoPathOf highlightIso3 width
      height).countryPaths[i]
      = countryPathOf geoPathOf
          (generateSvg countries geoBounds geoPathOf highlightIso3 width height).projection
          highlightIso3 countries[i] := by
    simp [generateSvg_countryPaths]
  by_cases hmem : countries[i].iso3 ∈ highlightIso3
  · simp [hget, countryPathOf, hmem, highlightColor, neutralColor]
  · simp [hget, countryPathOf, hmem, highlightColor, neutralColor]

/-- Witness for C1 on a concrete render: highlighting `ETH` over the
sample features colors the `ETH` path with the highlight color, the
`USA` path with the neutral color, and uses stroke width 0.5. -/
theorem generateSvg_fill_stroke_iff_witness :
    ((generateSvg sampleCountries sampleBounds samplePathOf ["ETH"] 800 800).countryPaths.length
        = sampleCountries.length)
    ∧ ((generateSvg sampleCountries sampleBounds samplePathOf ["ETH"] 800
          800).countryPaths.get ⟨0, by decide⟩).fill = highlightColor
    ∧ ((generateSvg sampleCountries sampleBounds samplePathOf ["ETH"] 800
          800).countryPaths.get ⟨1, by decide⟩).fill = neutralColor
    ∧ ((generateSvg sampleCountries sampleBounds samplePathOf ["ETH"] 800
          800).countryPaths.get ⟨0, by decide⟩).strokeWidth = some (1 / 2) := by
  have h := generateSvg_fill_stroke_iff sampleCountries sampleBounds samplePathOf ["ETH"] 800 800
  refine ⟨h.1, ?_, ?_, ?_⟩
  · exact ((h.2 0 (by decide) (by decide)).1.mpr (by decide)).1
  · exact ((h.2 1 (by decide) (by decide)).2.1.mpr (by decide)).1
  · exact (h.2 0 (by decide) (by decide)).2.2

/-- Claim C2: when at least one highlighted code matches a loaded
feature, the projection's rotation equals `(-lon0, -lat0)` for the
midpoint `(lon0, lat0)` of the `geoBounds` box of the matched features;
when none matches, the rotation stays at the identity `(0, 0)`. -/
theorem generateSvg_rotation_centering (countries : List Feature)
    (geoBounds : List Feature → Bounds) (geoPathOf : Projection → PathDatum → String)
    (highlightIso3 : List String) (width height : ℚ) :
    (selectedFeatures countries highlightIso3 ≠ [] →
      (generateSvg countries geoBounds geoPathOf highlightIso3 width height).projection.rotate
        = (-(((geoBounds (selectedFeatures countries highlightIso3)).1.1
                + (geoBounds (selectedFeatures countries highlightIso3)).2.1) / 2),
           -(((geoBounds (selectedFeatures countries highlightIso3)).1.2
                + (geoBounds (selectedFeatures countries highlightIso3)).2.2) / 2)))
    ∧ (selectedFeatures countries highlightIso3 = [] →
      (generateSvg countries geoBounds geoPathOf highlightIso3 width height).projection.rotate
        = (0, 0)) :=
  ⟨generateSvg_rotate_pos countries geoBounds geoPathOf highlightIso3 width height,
   generateSvg_rotate_id countries geoBounds geoPathOf highlightIso3 width height⟩

/-- Witness for C2 on concrete renders: highlighting `ETH` rotates to
the negated midpoint of the sample bounds, highlighting the unmatched
`ZZZ` leaves the identity rotation. -/
theorem generateSvg_rotation_centering_witness :
    ((generateSvg sampleCountries sampleBounds samplePathOf ["ETH"] 800 800).projection.rotate
        = (-(81 / 2 : ℚ), -9))
    ∧ ((generateSvg sampleCountries sampleBounds samplePathOf ["ZZZ"] 800 800).projection.rotate
        = (0, 0)) := by
  constructor
  · have h := (generateSvg_rotation_centering sampleCountries sampleBounds samplePathOf
      ["ETH"] 800 800).1 (by decide)
    rw [h]
    norm_num [sampleBounds]
  · exact (generateSvg_rotation_centering sampleCountries sampleBounds samplePathOf
      ["ZZZ"] 800 800).2 (by decide)

/-- The writes of the batch loop are one per feature of the iterated
list, in order, named `<dir-joined>/<code>.svg`. -/
lemma writesOf_batchLoop (countries : List Feature)
    (geoBounds : List Feature → Bounds) (geoPathOf : Projection → PathDatum → String)
    (width height : ℚ) (dir : String) (feats : List Feature) :
    writesOf (batchLoop countries geoBounds geoPathOf width height dir feats)
      = feats.map (fun feat =>
          (pathJoin dir (feat.iso3 ++ ".svg"),
           renderMarkup (generateSvg countries geoBounds geoPathOf [feat.iso3] width height))) := by
  induction feats with
  | nil => rfl
  | cons feat rest ih => simp [batchLoop, writesOf, ih]

/-- The batch loop performs no directory creation. -/
lemma mkdir_not_mem_batchLoop (countries : List Feature)
    (geoBounds : List Feature → Bounds) (geoPathOf : Projection → PathDatum → String)
    (width height : ℚ) (dir d : String) (feats : List Feature) :
    FsEffect.mkdirRecursive d ∉ batchLoop countries geoBounds geoPathOf width height dir feats := by
  induction feats with
  | nil => simp [batchLoop]
  | cons feat rest ih => simp [batchLoop, ih]

/-- Claim C3: in batch mode, exactly one file is written per feature
whose `secondary_territory` flag is `0`, named `<code>.svg` under the
resolved output directory, in the order the features appear in the
loaded list; the directory-creation effect occurs exactly when the
directory does not already exist, and it is recursive. -/
theorem mainAll_batch_output (countries : List Feature)
    (geoBounds : List Feature → Bounds) (geoPathOf : Projection → PathDatum → String)
    (width height : ℚ) (outdir : Option String) (dirExists : Bool) :
    writesOf (mainAll countries geoBounds geoPathOf width height outdir dirExists)
        = (countries.filter (fun d => d.secondary_territory = 0)).map (fun feat =>
            (pathJoin (batchDir outdir) (feat.iso3 ++ ".svg"),
             renderMarkup (generateSvg countries geoBounds geoPathOf [feat.iso3] width height)))
    ∧ (FsEffect.mkdirRecursive (batchDir outdir)
          ∈ mainAll countries geoBounds geoPathOf width height outdir dirExists
        ↔ dirExists = false) := by
  constructor
  · cases dirExists <;>
      simp [mainAll, writesOf, writesOf_batchLoop, mainCountries]
  · cases dirExists <;>
      simp [mainAll, mkdir_not_mem_batchLoop]

/-- Witness for C3 on a concrete batch run: the sample list with one
secondary territory produces exactly the two main-territory files, in
list order, and the absent directory is created. -/
theorem mainAll_batch_output_witness :
    (writesOf (mainAll sampleCountries sampleBounds samplePathOf 800 800 (some "maps") false)).map
        Prod.fst = ["maps/ETH.svg", "maps/USA.svg"]
    ∧ FsEffect.mkdirRecursive "maps"
        ∈ mainAll sampleCountries sampleBounds samplePathOf 800 800 (some "maps") false := by
  have h := mainAll_batch_output sampleCountries sampleBounds samplePathOf 800 800 (some "maps")
    false
  constructor
  · rw [h.1]
    decide
  · exact h.2.mpr rfl

/-- Unmatched highlight codes do not change the contains-test of the
remaining codes against loaded feature codes. -/
lemma contains_filter_ne (hl : List String) (code x : String) (hx : x ≠ code) :
    (hl.filter (fun c => c ≠ code)).contains x = hl.contains x := by
  induction hl with
  | nil => rfl
  | cons a as ih =>
    by_cases ha : a = code
    · subst ha
      simp [List.filter, ih, hx]
    · simp [List.filter, ha, List.contains_cons, ih, hx]

/-- Counterexample to claim C4 as stated: a render request whose
highlight code `ZZZ` matches no loaded feature emits no warning at all
(the multi-code `generateSvg` contains no warning call), contradicting
"a warning is printed for each such unmatched code". -/
theorem generateSvg_no_unmatched_warning_counterexample :
    selectedFeatures sampleCountries ["ZZZ"] = []
    ∧ (generateSvg sampleCountries sampleBounds samplePathOf ["ZZZ"] 800 800).warnings = [] := by
  constructor
  · decide
  · decide

/-- Claim C4 (amended): for every render request containing a highlight
code that matches no loaded feature, no warning is printed, and
rendering still proceeds, producing exactly the image that would be
produced without that code in the highlight set. -/
theorem generateSvg_unmatched_code_ignored (countries : List Feature)
    (geoBounds : List Feature → Bounds) (geoPathOf : Projection → PathDatum → String)
    (highlightIso3 : List String) (width height : ℚ) (code : String)
    (hno : ∀ f ∈ countries, f.iso3 ≠ code) :
    (generateSvg countries geoBounds geoPathOf highlightIso3 width height).warnings = []
    ∧ generateSvg countries geoBounds geoPathOf highlightIso3 width height
        = generateSvg countries geoBounds geoPathOf
            (highlightIso3.filter (fun c => c ≠ code)) width height := by
  have hcon : ∀ d ∈ countries,
      (highlightIso3.filter (fun c => c ≠ code)).contains d.iso3
        = highlightIso3.contains d.iso3 :=
    fun d hd => contains_filter_ne highlightIso3 code d.iso3 (hno d hd)
  have hsel : selectedFeatures countries (highlightIso3.filter (fun c => c ≠ code))
      = selectedFeatures countries highlightIso3 := by
    unfold selectedFeatures
    exact List.filter_congr (fun d hd => hcon d hd)
  have hmapc : ∀ (p : Projection),
      countries.map (countryPathOf geoPathOf p (highlightIso3.filter (fun c => c ≠ code)))
        = countries.map (countryPathOf geoPathOf p highlightIso3) := by
    intro p
    apply List.map_congr_left
    intro d hd
    simp [countryPathOf, hcon d hd, hno d hd]
  refine ⟨rfl, ?_⟩
  simp only [generateSvg, hsel, hmapc]

/-- Witness for the amended C4: rendering with `["ETH", "ZZZ"]` over the
sample features warns nothing and equals the render with `ZZZ` removed. -/
theorem generateSvg_unmatched_code_ignored_witness :
    (generateSvg sampleCountries sampleBounds samplePathOf ["ETH", "ZZZ"] 800 800).warnings = []
    ∧ generateSvg sampleCountries sampleBounds samplePathOf ["ETH", "ZZZ"] 800 800
        = generateSvg sampleCountries sampleBounds samplePathOf
            (["ETH", "ZZZ"].filter (fun c => c ≠ "ZZZ")) 800 800 :=
  generateSvg_unmatched_code_ignored sampleCountries sampleBounds samplePathOf ["ETH", "ZZZ"]
    800 800 "ZZZ" (by decide)

/-- Claim C5: the loader fails — printing to the error stream and
exiting non-zero, modelled by the `Except.error` results — in exactly
two cases: the dataset file is absent (`DatasetNotFound`) or the decoded
dataset has no named object collections (`EmptyTopology`); in every
other case loading succeeds with a feature list. -/
theorem loadGeometry_failure_cases :
    loadGeometry none = Except.error LoadError.DatasetNotFound
    ∧ (∀ w : TopoData, w.objects = [] →
        loadGeometry (some w) = Except.error LoadError.EmptyTopology)
    ∧ (∀ w : TopoData, w.objects ≠ [] → ∃ fs, loadGeometry (some w) = Except.ok fs)
    ∧ (∀ datasetFile : Option TopoData,
        (∃ e, loadGeometry datasetFile = Except.error e)
          ↔ (datasetFile = none ∨ ∃ w, datasetFile = some w ∧ w.objects = [])) := by
  refine ⟨rfl, ?_, ?_, ?_⟩
  · intro w hw
    simp [loadGeometry, hw]
  · intro w hw
    simp only [loadGeometry]
    rw [if_neg (by simpa [List.length_eq_zero] using hw)]
    exact ⟨_, rfl⟩
  · intro datasetFile
    cases datasetFile with
    | none => simp [loadGeometry]
    | some w =>
      by_cases hw : w.objects = []
      · simp [loadGeometry, hw]
      · have hlen : (w.objects.map Prod.fst).length ≠ 0 := by
          simpa [List.length_eq_zero] using hw
        simp [loadGeometry, hlen, hw]

/-- Witness for C5: the empty topology fails with `EmptyTopology`, and a
non-empty topology loads successfully. -/
theorem loadGeometry_failure_cases_witness :
    loadGeometry (some (⟨[]⟩ : TopoData)) = Except.error LoadError.EmptyTopology
    ∧ (∃ fs, loadGeometry (some topoWithCountries) = Except.ok fs) := by
  refine ⟨loadGeometry_failure_cases.2.1 ⟨[]⟩ rfl,
    loadGeometry_failure_cases.2.2.1 topoWithCountries ?_⟩
  intro h
  exact absurd h (by decide)

/-- Claim C6: for a decoded dataset with at least one named collection,
the loader returns the collection named `countries` when present, and
otherwise the first available collection. -/
theorem loadGeometry_collection_choice (w : TopoData) :
    (∀ coll, w.objects.lookup "countries" = some coll →
        loadGeometry (some w) = Except.ok coll)
    ∧ (w.objects.lookup "countries" = none →
        ∀ k fs rest, w.objects = (k, fs) :: rest → loadGeometry (some w) = Except.ok fs) := by
  constructor
  · intro coll hc
    have hne : w.objects ≠ [] := by
      intro h
      rw [h] at hc
      simp [List.lookup] at hc
    have hlen : (w.objects.map Prod.fst).length ≠ 0 := by
      simpa [List.length_eq_zero] using hne
    simp [loadGeometry, hlen, hc, hne]
  · intro hn k fs rest hobj
    have hlen : (w.objects.map Prod.fst).length ≠ 0 := by
      simp [hobj]
    rw [hobj] at hn
    simp only [List.lookup] at hn
    cases hbeq : ("countries" == k) with
    | true =>
      rw [hbeq] at hn
      simp at hn
    | false =>
      rw [hbeq] at hn
      simp only at hn
      simp [loadGeometry, hlen, hobj, List.lookup, hbeq, hn]

/-- Witness for C6: a dataset with a `countries` collection yields that
collection even when it is not first; one without yields the first
collection. -/
theorem loadGeometry_collection_choice_witness :
    loadGeometry (some topoWithCountries) = Except.ok [featETH]
    ∧ loadGeometry (some topoNoCountries) = Except.ok [featUSA] :=
  ⟨(loadGeometry_collection_choice topoWithCountries).1 [featETH] rfl,
   (loadGeometry_collection_choice topoNoCountries).2 rfl "x" [featUSA] [("y", [featETH])] rfl⟩

/-- Counterexample to claim C7 as stated: in the argument list
`["--width", "500", "--width", "abc"]` the second width value fails to
parse, yet the width is left at the previously parsed `500`, not at the
default `800`. -/
theorem width_parse_failure_counterexample :
    parseIntJs "abc" = none
    ∧ (parseArgs ["--width", "500", "--width", "abc"]).width = 500 := by
  constructor
  · decide
  · decide

/-- Claim C7 (amended): a width or height option whose value fails to
parse as an integer leaves that dimension at its current value — the
default `800` when no earlier option changed it — silently (the whole
option-value pair is a no-op for the parser state) and parsing continues
with the remaining arguments. -/
theorem parse_failure_keeps_dimension (c : Config) (v : String) (rest : List String)
    (hv : parseIntJs v = none) :
    parseLoop ("--width" :: v :: rest) c = parseLoop rest c
    ∧ parseLoop ("-w" :: v :: rest) c = parseLoop rest c
    ∧ parseLoop ("--height" :: v :: rest) c = parseLoop rest c
    ∧ (parseArgs ["--width", v]).width = 800
    ∧ (parseArgs ["--height", v]).height = 800 := by
  have hw : ∀ (d : Config), { d with width := jsOrInt (parseIntJs v) d.width } = d := by
    intro d
    simp [jsOrInt, hv]
  have hh : ∀ (d : Config), { d with height := jsOrInt (parseIntJs v) d.height } = d := by
    intro d
    simp [jsOrInt, hv]
  have h1 : parseLoop ("--width" :: v :: rest) c = parseLoop rest c := by
    show parseLoop rest { c with width := jsOrInt (parseIntJs v) c.width } = parseLoop rest c
    rw [hw]
  have h2 : parseLoop ("-w" :: v :: rest) c = parseLoop rest c := by
    show parseLoop rest { c with width := jsOrInt (parseIntJs v) c.width } = parseLoop rest c
    rw [hw]
  have h3 : parseLoop ("--height" :: v :: rest) c = parseLoop rest c := by
    show parseLoop rest { c with height := jsOrInt (parseIntJs v) c.height } = parseLoop rest c
    rw [hh]
  have h4 : parseLoop ["--width", v] initialConfig = initialConfig := by
    show parseLoop [] { initialConfig with width := jsOrInt (parseIntJs v) initialConfig.width }
      = initialConfig
    rw [hw]
    rfl
  have h5 : parseLoop ["--height", v] initialConfig = initialConfig := by
    show parseLoop [] { initialConfig with height := jsOrInt (parseIntJs v) initialConfig.height }
      = initialConfig
    rw [hh]
    rfl
  refine ⟨h1, h2, h3, ?_, ?_⟩
  · show (parseArgs ["--width", v]).width = 800
    unfold parseArgs
    rw [h4]
    rfl
  · unfold parseArgs
    rw [h5]
    rfl

/-- Witness for the amended C7: the unparsable `abc` width value is a
parser no-op and from the defaults the width stays `800`. -/
theorem parse_failure_keeps_dimension_witness :
    parseLoop ["--width", "abc", "--all"] initialConfig = parseLoop ["--all"] initialConfig
    ∧ (parseArgs ["--width", "abc"]).width = 800 :=
  ⟨(parse_failure_keeps_dimension initialConfig "abc" ["--all"] (by decide)).1,
   (parse_failure_keeps_dimension initialConfig "abc" ["--all"] (by decide)).2.2.2.1⟩

/-- Claim C8: rendering is a pure, deterministic function of the loaded
feature list, the highlight set and the dimensions (given the same
external d3 collaborators): identical inputs yield byte-identical markup
strings. -/
theorem renderMarkup_deterministic (countriesA countriesB : List Feature)
    (geoBoundsA geoBoundsB : List Feature → Bounds)
    (geoPathA geoPathB : Projection → PathDatum → String)
    (hlA hlB : List String) (wA wB hA hB : ℚ)
    (hc : countriesA = countriesB) (hgb : geoBoundsA = geoBoundsB)
    (hgp : geoPathA = geoPathB) (hhl : hlA = hlB) (hw : wA = wB) (hh : hA = hB) :
    renderMarkup (generateSvg countriesA geoBoundsA geoPathA hlA wA hA)
      = renderMarkup (generateSvg countriesB geoBoundsB geoPathB hlB wB hB) := by
  subst hc hgb hgp hhl hw hh
  rfl

/-- Witness for C8: two renders of the sample inputs produce the same
markup string. -/
theorem renderMarkup_deterministic_witness :
    renderMarkup (generateSvg sampleCountries sampleBounds samplePathOf ["ETH"] 800 800)
      = renderMarkup (generateSvg sampleCountries sampleBounds samplePathOf ["ETH"] 800 800) :=
  renderMarkup_deterministic sampleCountries sampleCountries sampleBounds sampleBounds
    samplePathOf samplePathOf ["ETH"] ["ETH"] 800 800 800 800 rfl rfl rfl rfl rfl rfl

/-- Claim C9: every value-taking option (`--iso3`/`-i`, `--width`/`-w`,
`--height`, `--output`/`-o`, `--outdir`/`-d`) consumes the immediately
following token as its value — updating only that option's field — and
the loop continues after the consumed token, which is never processed as
an option itself; in particular `["--width", "--all"]` leaves the width
at `800` and batch mode off. -/
theorem parseLoop_value_consumed :
    (∀ (c : Config) (v : String) (rest : List String),
      parseLoop ("--iso3" :: v :: rest) c
        = parseLoop rest
            { c with iso3List :=
                splitTrimUpper (if v = "" then String.intercalate "," c.iso3List else v) })
    ∧ (∀ (c : Config) (v : String) (rest : List String),
      parseLoop ("-i" :: v :: rest) c
        = parseLoop rest
            { c with iso3List :=
                splitTrimUpper (if v = "" then String.intercalate "," c.iso3List else v) })
    ∧ (∀ (c : Config) (v : String) (rest : List String),
      parseLoop ("--width" :: v :: rest) c
        = parseLoop rest { c with width := jsOrInt (parseIntJs v) c.width })
    ∧ (∀ (c : Config) (v : String) (rest : List String),
      parseLoop ("-w" :: v :: rest) c
        = parseLoop rest { c with width := jsOrInt (parseIntJs v) c.width })
    ∧ (∀ (c : Config) (v : String) (rest : List String),
      parseLoop ("--height" :: v :: rest) c
        = parseLoop rest { c with height := jsOrInt (parseIntJs v) c.height })
    ∧ (∀ (c : Config) (v : String) (rest : List String),
      parseLoop ("--output" :: v :: rest) c
        = parseLoop rest { c with output := if v = "" then c.output else some v })
    ∧ (∀ (c : Config) (v : String) (rest : List String),
      parseLoop ("-o" :: v :: rest) c
        = parseLoop rest { c with output := if v = "" then c.output else some v })
    ∧ (∀ (c : Config) (v : String) (rest : List String),
      parseLoop ("--outdir" :: v :: rest) c
        = parseLoop rest { c with outdir := if v = "" then c.outdir else some v })
    ∧ (∀ (c : Config) (v : String) (rest : List String),
      parseLoop ("-d" :: v :: rest) c
        = parseLoop rest { c with outdir := if v = "" then c.outdir else some v })
    ∧ (parseArgs ["--width", "--all"]).width = 800
    ∧ (parseArgs ["--width", "--all"]).all = false
    ∧ (parseArgs ["--width", "--all"]).helpExit = false := by
  refine ⟨?_, ?_, ?_, ?_, ?_, ?_, ?_, ?_, ?_, by decide, by decide, by decide⟩
  all_goals intro c v rest
  all_goals rfl

/-- Claim C10: in batch mode every render highlights a code taken from a
loaded feature itself, so the matched set is never empty and the
projection is rotated (to the negated bounds midpoint) in every batch
render — the unrotated branch is unreachable there. -/
theorem batch_render_always_rotated (countries : List Feature)
    (geoBounds : List Feature → Bounds) (geoPathOf : Projection → PathDatum → String)
    (width height : ℚ) (feat : Feature) (hfeat : feat ∈ mainCountries countries) :
    selectedFeatures countries [feat.iso3] ≠ []
    ∧ (generateSvg countries geoBounds geoPathOf [feat.iso3] width height).projection.rotate
        = (-(((geoBounds (selectedFeatures countries [feat.iso3])).1.1
                + (geoBounds (selectedFeatures countries [feat.iso3])).2.1) / 2),
           -(((geoBounds (selectedFeatures countries [feat.iso3])).1.2
                + (geoBounds (selectedFeatures countries [feat.iso3])).2.2) / 2)) := by
  have hmem : feat ∈ countries := List.mem_of_mem_filter hfeat
  have hsel : feat ∈ selectedFeatures countries [feat.iso3] := by
    simp [selectedFeatures, hmem]
  have hne : selectedFeatures countries [feat.iso3] ≠ [] := List.ne_nil_of_mem hsel
  exact ⟨hne, generateSvg_rotate_pos countries geoBounds geoPathOf [feat.iso3] width height hne⟩

/-- Witness for C10: the main-territory sample feature `ETH` yields a
non-empty match and the rotated projection. -/
theorem batch_render_always_rotated_witness :
    selectedFeatures sampleCountries [featETH.iso3] ≠ []
    ∧ (generateSvg sampleCountries sampleBounds samplePathOf [featETH.iso3] 800
        800).projection.rotate
        = (-(((sampleBounds (selectedFeatures sampleCountries [featETH.iso3])).1.1
                + (sampleBounds (selectedFeatures sampleCountries [featETH.iso3])).2.1) / 2),
           -(((sampleBounds (selectedFeatures sampleCountries [featETH.iso3])).1.2
                + (sampleBounds (selectedFeatures sampleCountries [featETH.iso3])).2.2) / 2)) :=
  batch_render_always_rotated sampleCountries sampleBounds samplePathOf 800 800 featETH
    (by decide)
